import Mathlib

/-!
Verification of the battery depassivation test station (Python/Tk application).

The development shallowly embeds the test-session state machine, the history
store (SQLite-backed `data_handler.py`) and the sequence grouper of the
repository.  Two revisions are modelled where the claims reference both:

* namespace `DG` — the later revision `Depassivation-GUI/gui.py` together with
  `Depassivation-GUI/data_handler.py` (the one that enables
  `PRAGMA foreign_keys`);
* namespace `Src` — the earlier revision `gui.py` / `data_handler.py` at the
  repository root (no foreign-key pragma, samples persisted from
  `handle_serial_data`).

Measured quantities (voltages, currents, powers, resistances) are modelled as
rationals; the claims under scrutiny only concern order comparisons and
equality with 0.0, which floating point evaluates exactly on the inputs used
here.  Database tables are association lists of rows; SQLite autoincrement ids
are modelled with explicit counters.
-/

/-! ### Kernel-computable string primitives

The Lean core `String` functions (`splitOn`, `startsWith`, `replace`, ...)
are defined by well-founded recursion on byte positions and do not reduce
inside the kernel, so the embedding uses its own structurally recursive
counterparts over `List Char`, modelling the Python string methods the
source calls.  Recursions that step over a matched separator take an explicit
fuel argument, always called with the length of the scanned list, which
bounds every step. -/

/-- Strip leading and trailing whitespace (Python `str.strip()`, as done by
`float()`/`int()` on their argument). -/
def stripChars (cs : List Char) : List Char :=
  ((cs.dropWhile Char.isWhitespace).reverse.dropWhile Char.isWhitespace).reverse

/-- Worker for `pySplit`: scan left to right, cutting at every occurrence of
the (nonempty) separator. -/
def splitAux (sep : List Char) : Nat → List Char → List Char → List (List Char)
  | _, [], acc => [acc.reverse]
  | 0, cs, acc => [acc.reverse ++ cs]
  | fuel + 1, c :: rest, acc =>
    if sep.isPrefixOf (c :: rest) then
      acc.reverse :: splitAux sep fuel (List.drop (sep.length - 1) rest) []
    else splitAux sep fuel rest (c :: acc)

/-- Python `s.split(sep)` for a nonempty separator. -/
def pySplit (s sep : String) : List String :=
  (splitAux sep.toList s.toList.length s.toList []).map List.asString

/-- Occurrence scan for `pyContains`. -/
def containsAux (pat : List Char) : List Char → Bool
  | [] => pat.isEmpty
  | c :: rest => pat.isPrefixOf (c :: rest) || containsAux pat rest

/-- The Python `pat in s` substring test. -/
def strContains (s pat : String) : Bool :=
  containsAux pat.toList s.toList

/-- Python `s.startswith(pre)`. -/
def pyStartsWith (s pre : String) : Bool :=
  pre.toList.isPrefixOf s.toList

/-- Worker for `pyReplace`. -/
def replaceAux (pat rep : List Char) : Nat → List Char → List Char
  | _, [] => []
  | 0, cs => cs
  | fuel + 1, c :: rest =>
    if pat.isPrefixOf (c :: rest) then
      rep ++ replaceAux pat rep fuel (List.drop (pat.length - 1) rest)
    else c :: replaceAux pat rep fuel rest

/-- Python `s.replace(old, new)` for a nonempty pattern. -/
def pyReplace (s old new : String) : String :=
  (replaceAux old.toList new.toList s.toList.length s.toList).asString

/-- Fold a digit list into a natural number (most significant first). -/
def digitsToNat (cs : List Char) : Nat :=
  cs.foldl (fun a c => a * 10 + (c.toNat - 48)) 0

/-- A nonempty all-digit field, as matched by the `strptime` numeric
directives. -/
def fieldNat? (s : String) : Option Nat :=
  let cs := s.toList
  if cs ≠ [] ∧ cs.all Char.isDigit then some (digitsToNat cs) else none

/-! ### Numeric conversions

Measured quantities are rationals built exclusively with `mkRat` (whose
normalisation, unlike the `Rat` field operations, reduces inside the
kernel), so concrete runs of the machines can be settled by `decide`. -/

/-- Model of Python `int(str)`: optional sign and a nonempty digit string,
surrounding whitespace stripped.  Returns `none` where Python raises
`ValueError`. -/
def pythonInt? (s : String) : Option Int :=
  let cs := stripChars s.toList
  let (neg, cs1) : Bool × List Char :=
    match cs with
    | '+' :: r => (false, r)
    | '-' :: r => (true, r)
    | r => (false, r)
  if cs1 ≠ [] ∧ cs1.all Char.isDigit then
    some (if neg then -(digitsToNat cs1 : Int) else (digitsToNat cs1 : Int))
  else
    none

/-- Model of Python `float(str)` on decimal literals: optional sign, digits
with an optional fractional part (at least one digit overall) and an
optional exponent; the value is the exact decimal, assembled with `mkRat`.
Returns `none` where Python raises `ValueError`.  (The special forms
`inf`/`nan`/underscores are not modelled; no claim depends on them.) -/
def pythonFloat? (s : String) : Option ℚ :=
  let cs := stripChars s.toList
  let (neg, cs1) : Bool × List Char :=
    match cs with
    | '+' :: r => (false, r)
    | '-' :: r => (true, r)
    | r => (false, r)
  let intPart := cs1.takeWhile Char.isDigit
  let rest1 := cs1.dropWhile Char.isDigit
  let (fracPart, rest2) : List Char × List Char :=
    match rest1 with
    | '.' :: r => (r.takeWhile Char.isDigit, r.dropWhile Char.isDigit)
    | r => ([], r)
  if intPart = [] ∧ fracPart = [] then none
  else
    let base : Int := (digitsToNat intPart : Int) * 10 ^ fracPart.length + digitsToNat fracPart
    let signed : Int := if neg then -base else base
    match rest2 with
    | [] => some (mkRat signed (10 ^ fracPart.length))
    | e :: r3 =>
      if e = 'e' ∨ e = 'E' then
        let (eneg, r4) : Bool × List Char :=
          match r3 with
          | '+' :: r => (false, r)
          | '-' :: r => (true, r)
          | r => (false, r)
        if r4 ≠ [] ∧ r4.all Char.isDigit then
          let ex := digitsToNat r4
          some (if eneg then mkRat signed (10 ^ (fracPart.length + ex))
            else mkRat (signed * 10 ^ ex) (10 ^ fracPart.length))
        else none
      else none

/-- Python truthiness of a nullable SQLite row id (`if self.current_test_id:`):
`None` and `0` are falsy. -/
def idTruthy : Option Nat → Bool
  | none => false
  | some n => n != 0

/-- Python `x or ""` applied to a nullable string: `None` (and the empty
string) collapse to `""`. -/
def orEmpty : Option String → String
  | none => ""
  | some s => s

/-- True minimum of a voltage stream, the first sample always setting the
extremum (the semantics the specification adopts). -/
def listMin : List ℚ → ℚ
  | [] => 0
  | v :: rest => rest.foldl min v

/-! ### Timestamps

The application stores timestamps as strings formatted
`%Y-%m-%d %H:%M:%S` and re-reads them with `datetime.strptime` using the same
format.  We model a parsed timestamp as a record of calendar fields plus the
validation `strptime`/`datetime` performs, and convert to an absolute count of
seconds (via a civil-calendar day number) so that `datetime` subtraction and
`timedelta` addition become integer arithmetic. -/

structure DateTime where
  year : Nat
  month : Nat
  day : Nat
  hour : Nat
  minute : Nat
  second : Nat
deriving DecidableEq, Repr

/-- Gregorian leap year (as in Python `calendar.isleap`). -/
def isLeap (y : Nat) : Bool :=
  (y % 4 == 0 && y % 100 != 0) || y % 400 == 0

/-- Days of a month (`datetime` validates the day against this). -/
def daysInMonth (y m : Nat) : Nat :=
  if m = 2 then (if isLeap y then 29 else 28)
  else if m = 4 ∨ m = 6 ∨ m = 9 ∨ m = 11 then 30
  else 31

/-- Day number of a civil date (the Hinnant algorithm specialised to years
`≥ 1`, counted from an arbitrary fixed origin — only differences are used). -/
def civilDays (y m d : Nat) : Nat :=
  let yAdj := if m ≤ 2 then y - 1 else y
  let era := yAdj / 400
  let yoe := yAdj % 400
  let mp := (m + 9) % 12
  let doy := (153 * mp + 2) / 5 + d - 1
  let doe := yoe * 365 + yoe / 4 - yoe / 100 + doy
  era * 146097 + doe

/-- Absolute second count of a parsed timestamp. -/
def toSecs (dt : DateTime) : Int :=
  (civilDays dt.year dt.month dt.day : Int) * 86400
    + dt.hour * 3600 + dt.minute * 60 + dt.second

/-- Model of `datetime.strptime(s, "%Y-%m-%d %H:%M:%S")`: the string must be
a date part and a time part joined by one space, each field a digit string,
with the range validation `datetime` performs (year `1..9999`, month `1..12`,
day within the month, hour `0..23`, minute and second `0..59`).  Returns
`none` where Python raises `ValueError`. -/
def parseTimestamp (s : String) : Option DateTime :=
  match pySplit s " " with
  | [datePart, timePart] =>
    match pySplit datePart "-", pySplit timePart ":" with
    | [ys, ms, ds], [hs, mis, ss] =>
      match fieldNat? ys, fieldNat? ms, fieldNat? ds, fieldNat? hs, fieldNat? mis, fieldNat? ss with
      | some y, some mo, some d, some h, some mi, some sec =>
        if 1 ≤ y ∧ y ≤ 9999 ∧ 1 ≤ mo ∧ mo ≤ 12 ∧ 1 ≤ d ∧ d ≤ daysInMonth y mo
            ∧ h ≤ 23 ∧ mi ≤ 59 ∧ sec ≤ 59 then
          some ⟨y, mo, d, h, mi, sec⟩
        else none
      | _, _, _, _, _, _ => none
    | _, _ => none
  | _ => none

/-! ## History store, later revision (`Depassivation-GUI/data_handler.py`)

This revision opens every connection with `PRAGMA foreign_keys = ON`, so the
schema-declared `ON DELETE CASCADE` (on `data_points.test_id`) and
`ON DELETE SET NULL` (on `tests.battery_id`) actions are enforced.  A table is
a list of rows in insertion order; `AUTOINCREMENT` ids come from explicit
counters. -/

/-- A `data_points` row (the table has the same shape in both revisions). -/
structure PointRow where
  id : Nat
  test_id : Nat
  timestamp_ms : Int
  voltage : ℚ
  current : ℚ
deriving DecidableEq, Repr

/-- Insertion into a list ordered by `timestamp_ms` (ascending, stable). -/
def insertByMs (p : PointRow) : List PointRow → List PointRow
  | [] => [p]
  | q :: rest =>
    if p.timestamp_ms ≤ q.timestamp_ms then p :: q :: rest
    else q :: insertByMs p rest

/-- `ORDER BY timestamp_ms ASC` over a point list. -/
def sortByMs (l : List PointRow) : List PointRow :=
  l.foldr insertByMs []

namespace DG

structure BatteryRow where
  id : Nat
  name : String
  created_at : String
deriving DecidableEq, Repr

structure TestRow where
  id : Nat
  battery_id : Option Nat
  timestamp : String
  duration : Int
  pass_fail_voltage : ℚ
  min_voltage : Option ℚ
  max_current : Option ℚ
  power : Option ℚ
  resistance : Option ℚ
  result : Option String
deriving DecidableEq, Repr

structure Store where
  batteries : List BatteryRow
  tests : List TestRow
  points : List PointRow
  nextBatteryId : Nat
  nextTestId : Nat
  nextPointId : Nat
deriving DecidableEq, Repr

/-- `create_new_test(battery_id, duration, pass_fail_voltage)`: refuses a
null battery id, otherwise inserts a fresh `tests` row (summary fields
`NULL`) and returns its id.  The wall-clock timestamp is an argument. -/
def create_new_test (battery_id : Option Nat) (duration : Int)
    (pass_fail_voltage : ℚ) (now : String) (st : Store) : Option Nat × Store :=
  match battery_id with
  | none => (none, st)
  | some bid =>
    let row : TestRow :=
      ⟨st.nextTestId, some bid, now, duration, pass_fail_voltage,
        none, none, none, none, none⟩
    (some st.nextTestId,
      { st with tests := st.tests ++ [row], nextTestId := st.nextTestId + 1 })

/-- `update_test_result(min_voltage, max_current, power, resistance, result)`:
no-op when the handler current test id is `None`, otherwise a write-once
update of the summary columns of that row. -/
def update_test_result (current_test_id : Option Nat)
    (min_voltage max_current power resistance : ℚ) (result : String)
    (st : Store) : Store :=
  match current_test_id with
  | none => st
  | some tid =>
    { st with
      tests := st.tests.map fun r =>
        if r.id = tid then
          { r with
            min_voltage := some min_voltage, max_current := some max_current,
            power := some power, resistance := some resistance,
            result := some result }
        else r }

/-- `get_test_data(test_id)`: `[]` for a null id, otherwise the sample rows of the test ordered by `timestamp_ms`, timestamps converted to seconds. -/
def get_test_data (test_id : Option Nat) (st : Store) : List (ℚ × ℚ × ℚ) :=
  match test_id with
  | none => []
  | some tid =>
    (sortByMs (st.points.filter fun p => p.test_id = tid)).map fun p =>
      (mkRat p.timestamp_ms 1000, p.voltage, p.current)

/-- `get_test_summary(test_id)`: `None` for a null id, otherwise the row. -/
def get_test_summary (test_id : Option Nat) (st : Store) : Option TestRow :=
  match test_id with
  | none => none
  | some tid => st.tests.find? fun r => r.id = tid

/-- `delete_test(test_id)`: `False` for a null id; otherwise deletes the row
and — foreign keys being ON in this revision — cascades to its
`data_points`; returns whether a `tests` row was removed. -/
def delete_test (test_id : Option Nat) (st : Store) : Bool × Store :=
  match test_id with
  | none => (false, st)
  | some tid =>
    let remaining := st.tests.filter fun r => r.id ≠ tid
    (remaining.length < st.tests.length,
      { st with
        tests := remaining,
        points := st.points.filter fun p => p.test_id ≠ tid })

/-- `delete_battery(battery_id)`: `False` for a null id; otherwise deletes
the battery row, the schema-declared `ON DELETE SET NULL` nulling the
`battery_id` of every referencing test; returns whether a battery row was
removed. -/
def delete_battery (battery_id : Option Nat) (st : Store) : Bool × Store :=
  match battery_id with
  | none => (false, st)
  | some bid =>
    let remaining := st.batteries.filter fun b => b.id ≠ bid
    (remaining.length < st.batteries.length,
      { st with
        batteries := remaining,
        tests := st.tests.map fun r =>
          if r.battery_id = some bid then { r with battery_id := none } else r })

end DG

/-! ## Session state machine, later revision (`Depassivation-GUI/gui.py`)

State of `DepassivationApp` restricted to the fields `handle_serial_data`,
`_start_test` and `abort_process` read or write (widget-only state such as
labels and the progress bar is omitted; the cycle label text participates
in the final result string and is therefore kept).  `current_test_id` is the
application pointer and `dh_current_test_id` the own copy of the `DataHandler`
(set by `create_new_test`, read by `update_test_result`). -/

namespace DG

structure GSt where
  is_running : Bool
  mosfet_on : Bool
  current_test_id : Option Nat
  dh_current_test_id : Option Nat
  last_completed_test_id : Option Nat
  min_voltage : ℚ
  max_current : ℚ
  power : ℚ
  resistance : ℚ
  live_min_voltage : ℚ
  live_max_current : ℚ
  live_min_resistance : ℚ
  live_max_resistance : ℚ
  data_points : List (ℚ × ℚ × ℚ)
  pass_fail_voltage_var : String
  cycle_label_text : String
  store : Store
deriving DecidableEq, Repr

/-- `handle_serial_data(data)` of `Depassivation-GUI/gui.py`.

* `BTN_PRESS` lines only log in this UI revision — no state change.
* `LIVE_DATA,<v>,<c>,<p>,<r>`: parse failures are swallowed
  (`except (ValueError, IndexError): pass`); with the load active the live
  extremum fields are updated with the sentinel comparisons of the source.
* `PROCESS_END`: stops the run; if the test-id is truthy, computes the
  result status from the configured threshold string, composes
  `"<phase> - <status>"` from the cycle label and writes the summary through
  `update_test_result`, then moves the current-test pointer to
  `last_completed_test_id`.
* `DATA,<ms>,<v>,<c>,<p>,<r>`: the five fields are converted in source
  order, so a failure on the resistance field leaves `self.power` already
  assigned (partial effect faithfully kept); on full success the sample is
  appended to the in-memory list (this revision does not persist samples
  from this handler) and the extrema are updated with the comparisons
  of the source. -/
def handle_serial_data (st : GSt) (data : String) : GSt :=
  if pyStartsWith data "BTN_PRESS" then st
  else if pyStartsWith data "LIVE_DATA" then
    match pySplit data "," with
    | [_, v_str, c_str, p_str, r_str] =>
      match pythonFloat? v_str with
      | none => st
      | some v =>
        if st.mosfet_on then
          match pythonFloat? c_str, pythonFloat? p_str, pythonFloat? r_str with
          | some c, some _p, some r =>
            let st1 :=
              if st.live_min_voltage = 0 ∨ v < st.live_min_voltage then
                { st with live_min_voltage := v } else st
            let st2 :=
              if c > st1.live_max_current then
                { st1 with live_max_current := c } else st1
            if r > 0 then
              let st3 :=
                if st2.live_min_resistance = 0 ∨ r < st2.live_min_resistance then
                  { st2 with live_min_resistance := r } else st2
              if r > st3.live_max_resistance then
                { st3 with live_max_resistance := r } else st3
            else st2
          | _, _, _ => st
        else st
    | _ => st
  else if pyStartsWith data "PROCESS_END" then
    let st0 := { st with is_running := false }
    if idTruthy st0.current_test_id then
      let result_status : String :=
        match pythonFloat? st0.pass_fail_voltage_var with
        | some pass_voltage => if st0.min_voltage ≥ pass_voltage then "PASS" else "FAIL"
        | none => "ERROR"
      let test_name := pyReplace st0.cycle_label_text "Current Cycle: " ""
      let final_result := test_name ++ " - " ++ result_status
      { st0 with
        store := update_test_result st0.dh_current_test_id st0.min_voltage
          st0.max_current st0.power st0.resistance final_result st0.store,
        last_completed_test_id := st0.current_test_id,
        current_test_id := none }
    else st0
  else if pyStartsWith data "DATA," then
    match pySplit data "," with
    | [_, time_ms_str, voltage_v, current_ma, power_mw, resistance_ohm] =>
      match pythonInt? time_ms_str, pythonFloat? voltage_v, pythonFloat? current_ma with
      | some time_ms, some voltage, some current =>
        match pythonFloat? power_mw with
        | none => st
        | some p =>
          let stp := { st with power := p }
          match pythonFloat? resistance_ohm with
          | none => stp
          | some r =>
            let st1 :=
              { stp with
                resistance := r,
                data_points := stp.data_points ++ [(mkRat time_ms 1000, voltage, current)] }
            let st2 :=
              if current > st1.max_current then { st1 with max_current := current } else st1
            if st2.min_voltage = 0 ∨ voltage < st2.min_voltage then
              { st2 with min_voltage := voltage }
            else st2
      | _, _, _ => st
    | _ => st
  else st

/-- Processing a whole message stream in arrival order. -/
def handle_stream (st : GSt) (lines : List String) : GSt :=
  lines.foldl handle_serial_data st

end DG

/-! ## History store, earlier revision (root `data_handler.py`)

This revision opens its SQLite connections WITHOUT `PRAGMA foreign_keys`;
SQLite disables foreign-key enforcement by default, so the
`ON DELETE CASCADE` declared on `data_points.test_id` has no effect on this
connections of this revision: deleting a test leaves its sample rows in place. -/

namespace Src

structure TestRow where
  id : Nat
  timestamp : String
  duration : Int
  pass_fail_voltage : ℚ
  min_voltage : Option ℚ
  result : Option String
deriving DecidableEq, Repr

structure Store where
  tests : List TestRow
  points : List PointRow
  nextTestId : Nat
  nextPointId : Nat
deriving DecidableEq, Repr

/-- `create_new_test(duration, pass_fail_voltage)`: inserts a fresh `tests`
row (no battery column in this schema) and returns its id; the handler
`current_test_id` is updated by the caller of this model. -/
def create_new_test (duration : Int) (pass_fail_voltage : ℚ) (now : String)
    (st : Store) : Option Nat × Store :=
  let row : TestRow := ⟨st.nextTestId, now, duration, pass_fail_voltage, none, none⟩
  (some st.nextTestId,
    { st with tests := st.tests ++ [row], nextTestId := st.nextTestId + 1 })

/-- `log_data_point(timestamp_ms, voltage, current)`: silently no-ops when
the handler field `current_test_id` is `None`, otherwise appends a
`data_points` row for that test. -/
def log_data_point (current_test_id : Option Nat) (timestamp_ms : Int)
    (voltage current : ℚ) (st : Store) : Store :=
  match current_test_id with
  | none => st
  | some tid =>
    { st with
      points := st.points ++ [⟨st.nextPointId, tid, timestamp_ms, voltage, current⟩],
      nextPointId := st.nextPointId + 1 }

/-- `update_test_result(min_voltage, result)` of the earlier revision. -/
def update_test_result (current_test_id : Option Nat) (min_voltage : ℚ)
    (result : String) (st : Store) : Store :=
  match current_test_id with
  | none => st
  | some tid =>
    { st with
      tests := st.tests.map fun r =>
        if r.id = tid then
          { r with min_voltage := some min_voltage, result := some result }
        else r }

/-- `get_test_data(test_id)`: as in the later revision. -/
def get_test_data (test_id : Option Nat) (st : Store) : List (ℚ × ℚ × ℚ) :=
  match test_id with
  | none => []
  | some tid =>
    (sortByMs (st.points.filter fun p => p.test_id = tid)).map fun p =>
      (mkRat p.timestamp_ms 1000, p.voltage, p.current)

/-- `delete_test(test_id)` of the earlier revision: `False` for a null id;
otherwise `DELETE FROM tests WHERE id = ?`.  Because this revision never
issues `PRAGMA foreign_keys = ON`, the declared cascade does NOT run: the
rows of the test in `data_points` are left untouched.  Returns whether a `tests`
row was removed. -/
def delete_test (test_id : Option Nat) (st : Store) : Bool × Store :=
  match test_id with
  | none => (false, st)
  | some tid =>
    let remaining := st.tests.filter fun r => r.id ≠ tid
    (remaining.length < st.tests.length, { st with tests := remaining })

end Src

/-! ## Session state machine, earlier revision (root `gui.py`) -/

namespace Src

/-- State of the earlier `DepassivationApp` restricted to what
`start_process`, `abort_process` and `handle_serial_data` touch, plus the
commands sent to the serial channel. -/
structure SSt where
  is_running : Bool
  connected : Bool
  current_test_id : Option Nat
  dh_current_test_id : Option Nat
  last_completed_test_id : Option Nat
  min_voltage : ℚ
  data_points : List (ℚ × ℚ × ℚ)
  pass_fail_voltage_var : String
  store : Store
  sent : List String
deriving DecidableEq, Repr

/-- `abort_process()` of the root revision: only when the serial connection
is open and a run is in progress it sends `ABORT` and stops the run.  It
does not touch the current-test pointers, the store, or the accumulators. -/
def abort_process (st : SSt) : SSt :=
  if st.connected ∧ st.is_running then
    { st with sent := st.sent ++ ["ABORT\n"], is_running := false }
  else st

/-- The field conversions of the `DATA` branch: `data.split(",")` must give
exactly four parts, the timestamp must convert by both `float` (for the
plot) and `int` (for `log_data_point`), voltage and current by `float`.
Any failure is caught in the source and drops the line with no state
change (the conversions all happen before the first side effect). -/
def parse_data_fields (data : String) : Option (Int × ℚ × ℚ) :=
  match pySplit data "," with
  | [_, time_ms, voltage_v, current_ma] =>
    match pythonFloat? time_ms, pythonInt? time_ms,
        pythonFloat? voltage_v, pythonFloat? current_ma with
    | some _, some tms, some v, some c => some (tms, v, c)
    | _, _, _, _ => none
  | _ => none

/-- `handle_serial_data(data)` of the root revision.

* `PROCESS_END`: stops the run; with a truthy test id computes
  `"PASS"`/`"FAIL"` from the threshold (an unparseable threshold leaves the
  initial `"N/A"`), persists via `update_test_result`, and clears the
  application pointer.
* `DATA,<ms>,<v>,<c>`: on successful conversion persists the sample through
  `log_data_point` (keyed by the handler own `current_test_id`), appends
  it to the plot list and updates the minimum-voltage accumulator with the
  source comparison `== 0.0 or <`.  This branch checks neither
  `is_running` nor the test pointer. -/
def handle_serial_data (st : SSt) (data : String) : SSt :=
  if pyStartsWith data "PROCESS_END" then
    let st0 := { st with is_running := false }
    if idTruthy st0.current_test_id then
      let result : String :=
        match pythonFloat? st0.pass_fail_voltage_var with
        | some pass_voltage => if st0.min_voltage ≥ pass_voltage then "PASS" else "FAIL"
        | none => "N/A"
      { st0 with
        store := update_test_result st0.dh_current_test_id st0.min_voltage result st0.store,
        last_completed_test_id := st0.current_test_id,
        current_test_id := none }
    else st0
  else if pyStartsWith data "DATA," then
    match parse_data_fields data with
    | none => st
    | some (time_ms, voltage, current) =>
      let st1 :=
        { st with
          store := log_data_point st.dh_current_test_id time_ms voltage current st.store,
          data_points := st.data_points ++ [(mkRat time_ms 1000, voltage, current)] }
      if st1.min_voltage = 0 ∨ voltage < st1.min_voltage then
        { st1 with min_voltage := voltage }
      else st1
  else st

end Src

/-! ## Sequence grouper (`on_history_battery_selected`, later revision)

`on_history_battery_selected` first decorates each fetched test row with a
display type derived from its result string, then scans the decorated list,
grouping a window of three consecutive entries typed
Baseline/Depassivation/Check into one "Sequence" display row.  Only the
Depassivation and Check timestamps are parsed (inside the `try`); a
`ValueError` there falls back to emitting the head test standalone and
advancing by one. -/

namespace Hist

/-- One entry of `tests_with_type`. -/
structure TypedTest where
  id : Nat
  timestamp : String
  result : String
  duration : Int
  type : String
deriving DecidableEq, Repr

/-- The display-type derivation: `result or "Incomplete"`, then the
substring checks in source order. -/
def deriveType (result : Option String) : String :=
  let result_text := if orEmpty result = "" then "Incomplete" else orEmpty result
  if strContains result_text "Baseline Test" then "Baseline"
  else if strContains result_text "Depassivation Cycle" then "Depassivation"
  else if strContains result_text "Depassivation Check" then "Check"
  else "Unknown"

/-- Decorating one fetched test row (`id`, `timestamp`, nullable `result`,
`duration`) as the source loop does. -/
def mkTypedTest (id : Nat) (timestamp : String) (result : Option String)
    (duration : Int) : TypedTest :=
  { id := id, timestamp := timestamp,
    result := if orEmpty result = "" then "Incomplete" else orEmpty result,
    duration := duration,
    type := deriveType result }

/-- One row of `display_items`. -/
structure DisplayItem where
  id : Nat
  type : String
  timestamp : String
  result : String
  tags : List String
deriving DecidableEq, Repr

/-- Lower-casing for the lower-cased `in`-substring tag check of the type column. -/
def lowerStr (s : String) : String :=
  (s.toList.map Char.toLower).asString

/-- A single test emitted as its own display row. -/
def standaloneItem (t : TypedTest) : DisplayItem :=
  { id := t.id, type := t.type, timestamp := t.timestamp, result := t.result,
    tags := if strContains (lowerStr t.type) "baseline" then ["baseline"] else [] }

/-- The rest-duration string: `divmod` into hours/minutes/seconds, hour and
minute components printed only when nonzero, seconds always. -/
def restTimeStr (total_seconds : Nat) : String :=
  let hours := total_seconds / 3600
  let remainder := total_seconds % 3600
  let minutes := remainder / 60
  let seconds := remainder % 60
  (if hours > 0 then toString hours ++ "h " else "")
    ++ (if minutes > 0 then toString minutes ++ "m " else "")
    ++ toString seconds ++ "s"

/-- The Sequence display row built from a grouped triple whose Depassivation
and Check timestamps parsed to `d2` and `d3`: the rest time is the gap from
the Depassivation end (`start + duration`) to the Check start, clamped at
zero (`max(0, ...)` becomes `Int.toNat`), and the displayed result reuses
the status after the last `" - "` of the Check result string. -/
def mkSeqItem (t1 t2 t3 : TypedTest) (d2 d3 : DateTime) : DisplayItem :=
  let total_seconds : Nat := (toSecs d3 - (toSecs d2 + t2.duration)).toNat
  let time_diff_str := restTimeStr total_seconds
  let original_result := (pySplit t3.result " - ").getLastD ""
  { id := t1.id, type := "Sequence", timestamp := t1.timestamp,
    result := "Completed - " ++ original_result ++ " (" ++ time_diff_str ++ " rest)",
    tags := ["check"] }

/-- Does the head of the list open a Baseline/Depassivation/Check window of
three (the phase-label test of the source, before any timestamp parsing)? -/
def startsPhaseTriple : List TypedTest → Bool
  | t1 :: t2 :: t3 :: _ =>
    t1.type == "Baseline" && t2.type == "Depassivation" && t3.type == "Check"
  | _ => false

/-- The scan of `on_history_battery_selected`: a Baseline/Depassivation/
Check window whose Depassivation and Check timestamps parse is emitted as
one Sequence row and the cursor advances by three; otherwise (including a
`strptime` failure) the head test is emitted standalone and the cursor
advances by one. -/
def groupTests : List TypedTest → List DisplayItem
  | [] => []
  | [t1] => [standaloneItem t1]
  | [t1, t2] => standaloneItem t1 :: groupTests [t2]
  | t1 :: t2 :: t3 :: rest =>
    if t1.type == "Baseline" && t2.type == "Depassivation" && t3.type == "Check" then
      match parseTimestamp t2.timestamp, parseTimestamp t3.timestamp with
      | some d2, some d3 => mkSeqItem t1 t2 t3 d2 d3 :: groupTests rest
      | _, _ => standaloneItem t1 :: groupTests (t2 :: t3 :: rest)
    else standaloneItem t1 :: groupTests (t2 :: t3 :: rest)

end Hist

/-! ## Phase-progression policy (`on_battery_selected`, later revision)

With a battery selected and the channel ready, `on_battery_selected`
fetches the most recent test of the battery through
`self.data_handler.get_last_test_for_battery` and enables exactly one of
the three start buttons based on its result.  The lookup method itself is
absent from every staged `data_handler.py` revision (only this call site
exists), so it is modelled from the specification below and the policy is
settled against that model. -/

/-- The three start buttons. -/
inductive Phase where
  | baseline
  | depassivation
  | check
deriving DecidableEq, Repr

/-- The branch chain of `on_battery_selected`: `none` stands for "no prior
test", `some r` for a most recent test whose nullable result is `r`
(collapsed by the Python `or ""` idiom). -/
def next_phase_policy : Option (Option String) → Phase
  | none => .baseline
  | some r =>
    let result_text := orEmpty r
    if strContains result_text "Baseline Test" then .depassivation
    else if strContains result_text "Depassivation Cycle" then .check
    else if strContains result_text "Depassivation Check" then .baseline
    else .baseline

/-- Lexicographic order on codepoint lists: how SQLite compares TEXT values
under its default binary collation on the ASCII timestamps stored here. -/
def lexLe : List Char → List Char → Bool
  | [], _ => true
  | _ :: _, [] => false
  | a :: as, b :: bs =>
    if a.toNat < b.toNat then true
    else if b.toNat < a.toNat then false
    else lexLe as bs

/-- `lexLe` lifted to strings. -/
def strLe (a b : String) : Bool :=
  lexLe a.toList b.toList

/-- One step of an `ORDER BY timestamp DESC LIMIT 1` scan: keep whichever
row has the later timestamp (the incumbent on ties). -/
def pickLater (acc : Option DG.TestRow) (r : DG.TestRow) : Option DG.TestRow :=
  match acc with
  | none => some r
  | some best => if strLe r.timestamp best.timestamp then some best else some r

/-- Modelled from the spec: `DataHandler.get_last_test_for_battery`, the
most-recent-test lookup that `on_battery_selected`
(`Depassivation-GUI/gui.py` line 548) calls but that no `data_handler.py`
revision under `src/` defines.  Spec section 4.1 derives the phase policy
from "the result of its most recently completed Test", and section 4.2
orders a battery history by timestamp descending, so the lookup returns
the test of the given battery with the maximal timestamp string (binary
collation, i.e. `strLe`), or `None` when the battery has no tests. -/
def get_last_test_for_battery (battery_id : Option Nat) (st : DG.Store) :
    Option DG.TestRow :=
  match battery_id with
  | none => none
  | some bid =>
    (st.tests.filter fun r => r.battery_id = some bid).foldl pickLater none

/-- The permitted-phase computation of `on_battery_selected` for a selected
battery on a ready channel: the branch chain applied to the result of the
most-recent-test lookup (`if not last_test` maps a missing row to the
Baseline-only case). -/
def on_battery_selected_policy (battery_id : Nat) (st : DG.Store) : Phase :=
  next_phase_policy
    ((get_last_test_for_battery (some battery_id) st).map fun r => r.result)

/-! ## Concrete fixtures

Small concrete stores and session states used to evaluate the machines on
explicit inputs (for example, a freshly started `Baseline Test` run with a
pass/fail threshold of `3.2` on test id 1). -/

/-- A later-revision store holding the single freshly created test row 1. -/
def freshDGStore : DG.Store :=
  ⟨[], [⟨1, some 1, "2024-01-01 09:00:00", 10, mkRat 16 5, none, none, none, none, none⟩],
    [], 2, 2, 1⟩

/-- A later-revision session right after `_start_test("Baseline Test", 10)`
with threshold string `"3.2"`: run in progress on test 1, all accumulators
cleared to `0.0` by `clear_graph_and_stats`. -/
def freshDGSession : DG.GSt :=
  ⟨true, false, some 1, some 1, none, 0, 0, 0, 0, 0, 0, 0, 0, [],
    "3.2", "Current Cycle: Baseline Test", freshDGStore⟩

/-- The same session in live mode right after activating the load
(`toggle_mosfet` resets the four live statistics to `0.0`). -/
def liveDGSession : DG.GSt :=
  { freshDGSession with mosfet_on := true }

/-- An earlier-revision store holding the single freshly created test 1. -/
def runSrcStore : Src.Store :=
  ⟨[⟨1, "2024-01-01 09:00:00", 10, mkRat 16 5, none, none⟩], [], 2, 1⟩

/-- An earlier-revision session mid-run on test 1, connected. -/
def runSrcSession : Src.SSt :=
  ⟨true, true, some 1, some 1, none, 0, [], "3.2", runSrcStore, ["START,10,3.2\n"]⟩

/-- An earlier-revision store where test 1 already has one sample row. -/
def orphanSrcStore : Src.Store :=
  ⟨[⟨1, "2024-01-01 09:00:00", 10, mkRat 16 5, none, none⟩], [⟨1, 1, 0, mkRat 7 2, 100⟩], 2, 2⟩

/-- A later-revision store: battery 7 with two tests, battery 9 with one. -/
def twoBatteryStore : DG.Store :=
  ⟨[⟨7, "B7", "2024-01-01 08:00:00"⟩, ⟨9, "B9", "2024-01-01 08:30:00"⟩],
    [⟨1, some 7, "2024-01-01 09:00:00", 10, mkRat 16 5, none, none, none, none, none⟩,
     ⟨2, some 7, "2024-01-01 10:00:00", 30, mkRat 16 5, none, none, none, none, none⟩,
     ⟨3, some 9, "2024-01-01 11:00:00", 10, mkRat 16 5, none, none, none, none, none⟩],
    [⟨1, 1, 0, mkRat 7 2, 100⟩], 10, 4, 2⟩

/-- Decorated history rows of a well-formed Baseline/Depassivation/Check
triple with parseable timestamps (Depassivation start 10:00:00, duration
30 s, Check start 11:01:00). -/
def seqB : Hist.TypedTest :=
  Hist.mkTypedTest 1 "2024-01-01 09:00:00" (some "Baseline Test - PASS") 10

def seqD : Hist.TypedTest :=
  Hist.mkTypedTest 2 "2024-01-01 10:00:00" (some "Depassivation Cycle - PASS") 30

def seqC : Hist.TypedTest :=
  Hist.mkTypedTest 3 "2024-01-01 11:01:00" (some "Depassivation Check - PASS") 10

/-- A Baseline-typed row whose own timestamp does not parse. -/
def seqBbad : Hist.TypedTest :=
  Hist.mkTypedTest 1 "garbage" (some "Baseline Test - PASS") 10

/-- A Depassivation-typed row whose timestamp does not parse. -/
def seqDbad : Hist.TypedTest :=
  Hist.mkTypedTest 2 "not a time" (some "Depassivation Cycle - PASS") 30

/-- A later-revision store for the phase policy: battery 7 finished a
Depassivation Check at 09:00 and then a new Baseline at 10:00 (listed
oldest first, so the lookup must pick by timestamp, not list position);
battery 9 has one Depassivation Cycle; battery 3 has no tests. -/
def historyStore : DG.Store :=
  ⟨[⟨7, "B7", "2024-01-01 08:00:00"⟩],
    [⟨1, some 7, "2024-01-01 09:00:00", 10, mkRat 16 5, none, none, none, none,
        some "Depassivation Check - PASS"⟩,
      ⟨2, some 7, "2024-01-01 10:00:00", 10, mkRat 16 5, none, none, none, none,
        some "Baseline Test - PASS"⟩,
      ⟨3, some 9, "2024-01-01 11:00:00", 10, mkRat 16 5, none, none, none, none,
        some "Depassivation Cycle - PASS"⟩],
    [], 10, 4, 1⟩

/-! ## Helper lemmas -/

/-- `lexLe` is reflexive. -/
theorem lexLe_refl (a : List Char) : lexLe a a = true := by
  induction a with
  | nil => rfl
  | cons x xs ih => simp [lexLe, ih]

/-- `lexLe` is total. -/
theorem lexLe_total (a b : List Char) : lexLe a b = true ∨ lexLe b a = true := by
  induction a generalizing b with
  | nil => left; rfl
  | cons x xs ih =>
    cases b with
    | nil => right; rfl
    | cons y ys =>
      rcases Nat.lt_trichotomy x.toNat y.toNat with h | h | h
      · left; simp [lexLe, h]
      · have h1 : ¬ x.toNat < y.toNat := by omega
        have h2 : ¬ y.toNat < x.toNat := by omega
        simpa [lexLe, h1, h2] using ih ys
      · right; simp [lexLe, h]

/-- `lexLe` is transitive. -/
theorem lexLe_trans (a : List Char) : ∀ b c : List Char,
    lexLe a b = true → lexLe b c = true → lexLe a c = true := by
  induction a with
  | nil => intro b c h1 h2; rfl
  | cons x xs ih =>
    intro b c h1 h2
    cases b with
    | nil => simp [lexLe] at h1
    | cons y ys =>
      cases c with
      | nil => simp [lexLe] at h2
      | cons z zs =>
        rcases Nat.lt_trichotomy x.toNat y.toNat with hxy | hxy | hxy
        · rcases Nat.lt_trichotomy y.toNat z.toNat with hyz | hyz | hyz
          · simp [lexLe, show x.toNat < z.toNat by omega]
          · simp [lexLe, show x.toNat < z.toNat by omega]
          · simp [lexLe, show ¬ y.toNat < z.toNat by omega, hyz] at h2
        · rcases Nat.lt_trichotomy y.toNat z.toNat with hyz | hyz | hyz
          · simp [lexLe, show x.toNat < z.toNat by omega]
          · have e1 : ¬ x.toNat < y.toNat := by omega
            have e2 : ¬ y.toNat < x.toNat := by omega
            have e3 : ¬ y.toNat < z.toNat := by omega
            have e4 : ¬ z.toNat < y.toNat := by omega
            have e5 : ¬ x.toNat < z.toNat := by omega
            have e6 : ¬ z.toNat < x.toNat := by omega
            simp only [lexLe, e1, e2, e3, e4, e5, e6, if_false] at h1 h2 ⊢
            exact ih ys zs h1 h2
          · simp [lexLe, show ¬ y.toNat < z.toNat by omega, hyz] at h2
        · simp [lexLe, show ¬ x.toNat < y.toNat by omega, hxy] at h1

/-- `strLe` is total. -/
theorem strLe_total (a b : String) : strLe a b = true ∨ strLe b a = true :=
  lexLe_total a.toList b.toList

/-- `strLe` is transitive. -/
theorem strLe_trans {a b c : String} (h1 : strLe a b = true)
    (h2 : strLe b c = true) : strLe a c = true :=
  lexLe_trans a.toList b.toList c.toList h1 h2

/-- The `pickLater` scan started on a row returns a row drawn from the seed
or the list whose timestamp dominates both. -/
theorem foldl_pickLater_spec (l : List DG.TestRow) (b : DG.TestRow) :
    ∃ res, l.foldl pickLater (some b) = some res
      ∧ (res = b ∨ res ∈ l)
      ∧ (∀ r', (r' = b ∨ r' ∈ l) → strLe r'.timestamp res.timestamp = true) := by
  induction l generalizing b with
  | nil =>
    refine ⟨b, rfl, Or.inl rfl, ?_⟩
    rintro r' (rfl | h)
    · exact lexLe_refl _
    · simp at h
  | cons r rest ih =>
    by_cases hle : strLe r.timestamp b.timestamp = true
    · obtain ⟨res, hres, hmem, hdom⟩ := ih b
      refine ⟨res, ?_, ?_, ?_⟩
      · simpa [pickLater, hle] using hres
      · rcases hmem with h | h
        · exact Or.inl h
        · exact Or.inr (List.mem_cons_of_mem _ h)
      · rintro r' (rfl | h)
        · exact hdom _ (Or.inl rfl)
        · rcases List.mem_cons.mp h with rfl | h2
          · exact strLe_trans hle (hdom _ (Or.inl rfl))
          · exact hdom r' (Or.inr h2)
    · have hbr : strLe b.timestamp r.timestamp = true := by
        rcases strLe_total r.timestamp b.timestamp with h | h
        · exact absurd h hle
        · exact h
      obtain ⟨res, hres, hmem, hdom⟩ := ih r
      refine ⟨res, ?_, ?_, ?_⟩
      · have hstep : pickLater (some b) r = some r := by
          simp [pickLater, hle]
        rw [List.foldl_cons, hstep]
        exact hres
      · rcases hmem with h | h
        · exact Or.inr (h ▸ List.mem_cons_self r rest)
        · exact Or.inr (List.mem_cons_of_mem _ h)
      · rintro r' (rfl | h)
        · exact strLe_trans hbr (hdom _ (Or.inl rfl))
        · rcases List.mem_cons.mp h with rfl | h2
          · exact hdom _ (Or.inl rfl)
          · exact hdom r' (Or.inr h2)

/-- A `none` lookup means the battery has no tests in the store. -/
theorem get_last_test_for_battery_none (bid : Nat) (st : DG.Store)
    (h : get_last_test_for_battery (some bid) st = none) :
    ∀ r ∈ st.tests, r.battery_id ≠ some bid := by
  intro r hr hb
  cases hf : st.tests.filter (fun r => r.battery_id = some bid) with
  | nil =>
    have hnone := List.filter_eq_nil_iff.mp hf r hr
    simp [hb] at hnone
  | cons r0 t =>
    have h0 : get_last_test_for_battery (some bid) st
        = t.foldl pickLater (some r0) := by
      simp [get_last_test_for_battery, hf, pickLater]
    obtain ⟨res, hres, -, -⟩ := foldl_pickLater_spec t r0
    rw [h0, hres] at h
    exact Option.noConfusion h

/-- A `some` lookup returns a test of the battery whose timestamp dominates
every test of that battery in the store. -/
theorem get_last_test_for_battery_some (bid : Nat) (st : DG.Store)
    (r : DG.TestRow)
    (h : get_last_test_for_battery (some bid) st = some r) :
    r ∈ st.tests ∧ r.battery_id = some bid
    ∧ ∀ r' ∈ st.tests, r'.battery_id = some bid →
        strLe r'.timestamp r.timestamp = true := by
  cases hf : st.tests.filter (fun r => r.battery_id = some bid) with
  | nil =>
    rw [get_last_test_for_battery, hf] at h
    exact Option.noConfusion h
  | cons r0 t =>
    have h0 : get_last_test_for_battery (some bid) st
        = t.foldl pickLater (some r0) := by
      simp [get_last_test_for_battery, hf, pickLater]
    obtain ⟨res, hres, hmem, hdom⟩ := foldl_pickLater_spec t r0
    rw [h0, hres] at h
    obtain rfl : res = r := by injection h
    have hresl : res ∈ st.tests.filter (fun r => r.battery_id = some bid) := by
      rw [hf]
      rcases hmem with rfl | hm
      · exact List.mem_cons_self _ _
      · exact List.mem_cons_of_mem _ hm
    have hresf := List.mem_filter.mp hresl
    refine ⟨hresf.1, by simpa using hresf.2, ?_⟩
    intro r' hr' hb'
    have hr'f : r' ∈ st.tests.filter (fun r => r.battery_id = some bid) :=
      List.mem_filter.mpr ⟨hr', by simp [hb']⟩
    rw [hf] at hr'f
    rcases List.mem_cons.mp hr'f with rfl | h2
    · exact hdom r' (Or.inl rfl)
    · exact hdom r' (Or.inr h2)

/-- Looking up a test after `update_test_result` on the same id returns the
row with its summary columns overwritten. -/
theorem get_test_summary_update_test_result (tid : Nat) (mv mc pw rs : ℚ)
    (res : String) (st : DG.Store) :
    DG.get_test_summary (some tid) (DG.update_test_result (some tid) mv mc pw rs res st) =
      (DG.get_test_summary (some tid) st).map fun r =>
        { r with min_voltage := some mv, max_current := some mc,
                 power := some pw, resistance := some rs, result := some res } := by
  simp only [DG.get_test_summary, DG.update_test_result]
  induction st.tests with
  | nil => rfl
  | cons r rest ih =>
    by_cases h : r.id = tid
    · simp [List.find?_cons, h]
    · simp [List.find?_cons, h, ih]

/-- Whenever the head of the decorated list does not open a phase triple,
the scan emits it standalone and advances by one. -/
theorem groupTests_head_fallback (t1 : Hist.TypedTest) (rest : List Hist.TypedTest)
    (h : Hist.startsPhaseTriple (t1 :: rest) = false) :
    Hist.groupTests (t1 :: rest) = Hist.standaloneItem t1 :: Hist.groupTests rest := by
  match rest with
  | [] => rfl
  | [t2] => rfl
  | t2 :: t3 :: rest2 =>
    have hc : (t1.type == "Baseline" && t2.type == "Depassivation"
        && t3.type == "Check") = false := by
      simpa [Hist.startsPhaseTriple] using h
    simp [Hist.groupTests, hc]

/-- A head not typed Baseline never opens a phase triple. -/
theorem groupTests_head_not_baseline (t1 : Hist.TypedTest) (rest : List Hist.TypedTest)
    (h : t1.type ≠ "Baseline") :
    Hist.groupTests (t1 :: rest) = Hist.standaloneItem t1 :: Hist.groupTests rest := by
  apply groupTests_head_fallback
  cases rest with
  | nil => rfl
  | cons t2 r2 =>
    cases r2 with
    | nil => rfl
    | cons t3 r3 => simp [Hist.startsPhaseTriple, h]

/-! ## Claims -/

/-- C10: every later-revision store operation invoked with a null id is a
total no-op on the database: `create_new_test` with a null battery id
returns `None`, `get_test_data` returns the empty list, `get_test_summary`
returns `None`, and `delete_test` and `delete_battery` return false, in
each case leaving the store untouched. -/
theorem C10_null_id_total_noop (st : DG.Store) (duration : Int) (pfv : ℚ)
    (now : String) :
    DG.create_new_test none duration pfv now st = (none, st)
    ∧ DG.get_test_data none st = []
    ∧ DG.get_test_summary none st = none
    ∧ DG.delete_test none st = (false, st)
    ∧ DG.delete_battery none st = (false, st) :=
  ⟨rfl, rfl, rfl, rfl, rfl⟩

/-- C9: the permitted next phase computed from the most recently completed
test of the battery: only Baseline when the lookup finds no prior test
(which provably happens exactly when the battery has no tests in the
store); only Depassivation when the last result contains "Baseline Test";
only Check when it contains "Depassivation Cycle"; Baseline again when it
contains "Depassivation Check"; and Baseline for any other or incomplete
result — the containment cases read in the order the specification lists
them (the branch order of `on_battery_selected`).  The most-recent-test
lookup is `get_last_test_for_battery`, modelled from the spec because the
method is absent from the staged sources; the final conjunct shows it
really returns a test of the battery with maximal timestamp, so the case
analysis is over the most recently completed test. -/
theorem C9_phase_progression :
    (∀ (bid : Nat) (st : DG.Store),
      get_last_test_for_battery (some bid) st = none →
      on_battery_selected_policy bid st = Phase.baseline)
    ∧ (∀ (bid : Nat) (st : DG.Store) (r : DG.TestRow),
      get_last_test_for_battery (some bid) st = some r →
      strContains (orEmpty r.result) "Baseline Test" = true →
      on_battery_selected_policy bid st = Phase.depassivation)
    ∧ (∀ (bid : Nat) (st : DG.Store) (r : DG.TestRow),
      get_last_test_for_battery (some bid) st = some r →
      strContains (orEmpty r.result) "Baseline Test" = false →
      strContains (orEmpty r.result) "Depassivation Cycle" = true →
      on_battery_selected_policy bid st = Phase.check)
    ∧ (∀ (bid : Nat) (st : DG.Store) (r : DG.TestRow),
      get_last_test_for_battery (some bid) st = some r →
      strContains (orEmpty r.result) "Baseline Test" = false →
      strContains (orEmpty r.result) "Depassivation Cycle" = false →
      strContains (orEmpty r.result) "Depassivation Check" = true →
      on_battery_selected_policy bid st = Phase.baseline)
    ∧ (∀ (bid : Nat) (st : DG.Store) (r : DG.TestRow),
      get_last_test_for_battery (some bid) st = some r →
      strContains (orEmpty r.result) "Baseline Test" = false →
      strContains (orEmpty r.result) "Depassivation Cycle" = false →
      strContains (orEmpty r.result) "Depassivation Check" = false →
      on_battery_selected_policy bid st = Phase.baseline)
    ∧ (∀ (bid : Nat) (st : DG.Store),
      get_last_test_for_battery (some bid) st = none →
      ∀ r ∈ st.tests, r.battery_id ≠ some bid)
    ∧ (∀ (bid : Nat) (st : DG.Store) (r : DG.TestRow),
      get_last_test_for_battery (some bid) st = some r →
      r ∈ st.tests ∧ r.battery_id = some bid
      ∧ ∀ r' ∈ st.tests, r'.battery_id = some bid →
          strLe r'.timestamp r.timestamp = true) := by
  refine ⟨?_, ?_, ?_, ?_, ?_,
    get_last_test_for_battery_none, get_last_test_for_battery_some⟩
  · intro bid st h
    simp [on_battery_selected_policy, h, next_phase_policy]
  all_goals
    intro bid st r h
    intros
    simp_all [on_battery_selected_policy, next_phase_policy]

/-- C9 witness: on `historyStore`, battery 7 (Depassivation Check at 09:00,
then a newer Baseline at 10:00) is only permitted Depassivation — the
lookup picks the 10:00 Baseline by timestamp, not list position —, battery
9 (one Depassivation Cycle) is only permitted Check, and battery 3 (no
tests) is only permitted Baseline. -/
theorem C9_phase_progression_witness :
    on_battery_selected_policy 7 historyStore = Phase.depassivation
    ∧ on_battery_selected_policy 9 historyStore = Phase.check
    ∧ on_battery_selected_policy 3 historyStore = Phase.baseline
    ∧ (⟨2, some 7, "2024-01-01 10:00:00", 10, mkRat 16 5, none, none, none, none,
        some "Baseline Test - PASS"⟩ : DG.TestRow) ∈ historyStore.tests :=
  ⟨C9_phase_progression.2.1 7 historyStore
      ⟨2, some 7, "2024-01-01 10:00:00", 10, mkRat 16 5, none, none, none, none,
        some "Baseline Test - PASS"⟩ (by decide) (by decide),
    C9_phase_progression.2.2.1 9 historyStore
      ⟨3, some 9, "2024-01-01 11:00:00", 10, mkRat 16 5, none, none, none, none,
        some "Depassivation Cycle - PASS"⟩ (by decide) (by decide) (by decide),
    C9_phase_progression.1 3 historyStore (by decide),
    (C9_phase_progression.2.2.2.2.2.2 7 historyStore
      ⟨2, some 7, "2024-01-01 10:00:00", 10, mkRat 16 5, none, none, none, none,
        some "Baseline Test - PASS"⟩ (by decide)).1⟩

/-- C1: the claim states that over any fresh session the minimum-voltage
accumulator ends at the true minimum of the fed voltages, with the first
sample always setting the extremum even at 0.0.  The source
(`if self.min_voltage == 0.0 or voltage < self.min_voltage`) instead treats
a stored 0.0 as the "unset" sentinel: feeding voltages 0.0 then 3.5 to a
fresh session leaves the accumulator at 3.5 (= `mkRat 7 2`), while the true
minimum of the fed voltages is 0.  (The single-sample degenerate case
coincidentally agrees, as the first conjunct shows.) -/
theorem C1_min_voltage_zero_sentinel :
    (DG.handle_serial_data freshDGSession "DATA,0,0.0,1.0,1.0,1.0").min_voltage = 0
    ∧ (DG.handle_stream freshDGSession
        ["DATA,0,0.0,1.0,1.0,1.0", "DATA,1000,3.5,1.0,1.0,1.0"]).min_voltage = mkRat 7 2
    ∧ listMin [0, mkRat 7 2] = 0
    ∧ (mkRat 7 2 : ℚ) ≠ 0 := by decide

/-- C2: receiving `PROCESS_END` with a current test computes `"PASS"` when
the recorded minimum voltage is at least the parsed threshold, `"FAIL"`
when it is strictly below, `"ERROR"` when the threshold string does not
parse, and persists exactly `"<phase> - <status>"` to the test row. -/
theorem C2_process_end_result (s : DG.GSt) (t : Nat) (phase : String)
    (row : DG.TestRow)
    (hcur : s.current_test_id = some t) (ht : t ≠ 0)
    (hdh : s.dh_current_test_id = some t)
    (hphase : phase = "Baseline Test" ∨ phase = "Depassivation Cycle"
      ∨ phase = "Depassivation Check")
    (hlabel : s.cycle_label_text = "Current Cycle: " ++ phase)
    (hrow : DG.get_test_summary (some t) s.store = some row) :
    DG.get_test_summary (some t) (DG.handle_serial_data s "PROCESS_END").store =
      some { row with
        min_voltage := some s.min_voltage, max_current := some s.max_current,
        power := some s.power, resistance := some s.resistance,
        result := some (phase ++ " - " ++
          match pythonFloat? s.pass_fail_voltage_var with
          | none => "ERROR"
          | some pv => if pv ≤ s.min_voltage then "PASS" else "FAIL") } := by
  have h1 : pyStartsWith "PROCESS_END" "BTN_PRESS" = false := by decide
  have h2 : pyStartsWith "PROCESS_END" "LIVE_DATA" = false := by decide
  have h3 : pyStartsWith "PROCESS_END" "PROCESS_END" = true := by decide
  have ht2 : idTruthy (some t) = true := by simp [idTruthy, ht]
  have hrepl : ∀ ph : String, ph = "Baseline Test" ∨ ph = "Depassivation Cycle"
      ∨ ph = "Depassivation Check" →
      pyReplace ("Current Cycle: " ++ ph) "Current Cycle: " "" = ph := by
    rintro ph (rfl | rfl | rfl) <;> decide
  simp only [DG.handle_serial_data, h1, h2, h3, Bool.false_eq_true, if_false, if_true,
    ite_true, ite_false, hcur, ht2, hdh, hlabel]
  rw [get_test_summary_update_test_result, hrow, hrepl phase hphase]
  rcases hfl : pythonFloat? s.pass_fail_voltage_var with _ | pv <;>
    simp [ge_iff_le]

/-- C2 witness: the end-to-end scenario of the specification — a fresh
Baseline run with threshold `"3.2"` whose minimum voltage stayed `0.0`
finishes as `"Baseline Test - FAIL"` (with the summary columns written). -/
theorem C2_process_end_result_witness :
    DG.get_test_summary (some 1) (DG.handle_serial_data freshDGSession "PROCESS_END").store =
      some ⟨1, some 1, "2024-01-01 09:00:00", 10, mkRat 16 5,
        some 0, some 0, some 0, some 0, some "Baseline Test - FAIL"⟩ := by
  have h := C2_process_end_result freshDGSession 1 "Baseline Test"
    ⟨1, some 1, "2024-01-01 09:00:00", 10, mkRat 16 5, none, none, none, none, none⟩
    rfl (by decide) rfl (Or.inl rfl) rfl (by decide)
  exact h.trans (by decide)

/-- C3 counterexample: in the mid-run session `runSrcSession` (current test
1, connected), `abort_process` leaves the current-test pointer at `some 1`
instead of clearing it, and a sample line arriving after the abort is still
appended to the aborted test 1 instead of being dropped. -/
theorem C3_counterexample :
    (Src.abort_process runSrcSession).current_test_id = some 1
    ∧ (Src.abort_process runSrcSession).dh_current_test_id = some 1
    ∧ (Src.handle_serial_data (Src.abort_process runSrcSession)
        "DATA,100,3.5,50.0").store.points = [⟨1, 1, 100, mkRat 7 2, 50⟩] := by
  decide

/-- C3 amended: `abort_process` while running and connected sends the
`ABORT` command and writes no result and no final statistics (the store is
untouched, so the test row and its samples remain with a null result), but
it does NOT clear the current-test pointer: a well-formed sample line
processed after the abort is still appended to the aborted test. -/
theorem C3_abort_keeps_pointer (s : Src.SSt) (hconn : s.connected = true)
    (hrun : s.is_running = true) :
    (Src.abort_process s).sent = s.sent ++ ["ABORT\n"]
    ∧ (Src.abort_process s).is_running = false
    ∧ (Src.abort_process s).store = s.store
    ∧ (Src.abort_process s).current_test_id = s.current_test_id
    ∧ (Src.abort_process s).dh_current_test_id = s.dh_current_test_id
    ∧ (∀ line t ms v c, s.dh_current_test_id = some t →
        pyStartsWith line "PROCESS_END" = false →
        pyStartsWith line "DATA," = true →
        Src.parse_data_fields line = some (ms, v, c) →
        (Src.handle_serial_data (Src.abort_process s) line).store.points
          = s.store.points ++ [⟨s.store.nextPointId, t, ms, v, c⟩]) := by
  have habort : Src.abort_process s
      = { s with sent := s.sent ++ ["ABORT\n"], is_running := false } := by
    simp [Src.abort_process, hconn, hrun]
  refine ⟨by rw [habort], by rw [habort], by rw [habort], by rw [habort], by rw [habort], ?_⟩
  intro line t ms v c hdh hpe hdata hparse
  rw [habort]
  simp only [Src.handle_serial_data, hpe, hdata, hparse, Src.log_data_point, hdh,
    Bool.false_eq_true, if_false, if_true]
  split <;> rfl

/-- C3 witness: the amended statement evaluated on `runSrcSession` and the
sample line `DATA,100,3.5,50.0` arriving after the abort. -/
theorem C3_abort_keeps_pointer_witness :
    (Src.abort_process runSrcSession).sent = ["START,10,3.2\n", "ABORT\n"]
    ∧ (Src.abort_process runSrcSession).is_running = false
    ∧ (Src.abort_process runSrcSession).store = runSrcStore
    ∧ (Src.handle_serial_data (Src.abort_process runSrcSession)
        "DATA,100,3.5,50.0").store.points
      = runSrcStore.points ++ [⟨1, 1, 100, mkRat 7 2, 50⟩] := by
  have h := C3_abort_keeps_pointer runSrcSession rfl rfl
  refine ⟨h.1.trans (by decide), h.2.1, h.2.2.1, ?_⟩
  have h6 := h.2.2.2.2.2 "DATA,100,3.5,50.0" 1 100 (mkRat 7 2) 50 rfl
    (by decide) (by decide) (by decide)
  exact h6.trans (by decide)

/-- C4: `delete_test` of the root revision on the store holding test 1 with
one sample row: it removes the test row and returns true, but — the
connection never enabling SQLite foreign-key enforcement, despite the
source comment promising the cascade — the sample row survives and
`get_test_data` for the deleted id is NOT empty. -/
theorem C4_delete_test_no_cascade :
    Src.delete_test (some 1) orphanSrcStore
      = (true, ⟨[], [⟨1, 1, 0, mkRat 7 2, 100⟩], 2, 2⟩)
    ∧ Src.get_test_data (some 1) (Src.delete_test (some 1) orphanSrcStore).2
      = [(0, mkRat 7 2, 100)]
    ∧ Src.get_test_data (some 1) (Src.delete_test (some 1) orphanSrcStore).2 ≠ [] := by
  decide

/-- C5: the grouping scan over a battery history in time order — three
consecutive tests typed Baseline, Depassivation, Check in chronological
order with parseable timestamps are emitted as exactly one Sequence item
and the cursor advances past them; a test that does not open such a phase
triple is emitted as a single standalone item and the cursor advances by
one; in particular a Baseline followed directly by a Check (no
Depassivation between) yields two standalone items. -/
theorem C5_sequence_grouping :
    (∀ (t1 t2 t3 : Hist.TypedTest) (rest : List Hist.TypedTest)
        (d1 d2 d3 : DateTime),
      t1.type = "Baseline" → t2.type = "Depassivation" → t3.type = "Check" →
      parseTimestamp t1.timestamp = some d1 →
      parseTimestamp t2.timestamp = some d2 →
      parseTimestamp t3.timestamp = some d3 →
      toSecs d1 ≤ toSecs d2 → toSecs d2 ≤ toSecs d3 →
      Hist.groupTests (t1 :: t2 :: t3 :: rest)
        = Hist.mkSeqItem t1 t2 t3 d2 d3 :: Hist.groupTests rest
      ∧ (Hist.mkSeqItem t1 t2 t3 d2 d3).type = "Sequence")
    ∧ (∀ (t1 : Hist.TypedTest) (rest : List Hist.TypedTest),
        Hist.startsPhaseTriple (t1 :: rest) = false →
        Hist.groupTests (t1 :: rest) = Hist.standaloneItem t1 :: Hist.groupTests rest)
    ∧ (∀ ta tb : Hist.TypedTest, ta.type = "Baseline" → tb.type = "Check" →
        Hist.groupTests [ta, tb] = [Hist.standaloneItem ta, Hist.standaloneItem tb]) := by
  refine ⟨?_, groupTests_head_fallback, ?_⟩
  · intro t1 t2 t3 rest d1 d2 d3 h1 h2 h3 hp1 hp2 hp3 hord1 hord2
    refine ⟨?_, rfl⟩
    simp [Hist.groupTests, h1, h2, h3, hp2, hp3]
  · intro ta tb h1 h2
    simp [Hist.groupTests]

/-- C5 witness: a chronological Baseline/Depassivation/Check triple with
parseable timestamps collapses to its single Sequence item, and the
Baseline-then-Check pair yields the two standalone items. -/
theorem C5_sequence_grouping_witness :
    Hist.groupTests [seqB, seqD, seqC]
      = [Hist.mkSeqItem seqB seqD seqC ⟨2024, 1, 1, 10, 0, 0⟩ ⟨2024, 1, 1, 11, 1, 0⟩]
    ∧ Hist.groupTests [seqB, seqC]
      = [Hist.standaloneItem seqB, Hist.standaloneItem seqC] := by
  refine ⟨?_, C5_sequence_grouping.2.2 seqB seqC (by decide) (by decide)⟩
  have h := (C5_sequence_grouping.1 seqB seqD seqC []
    ⟨2024, 1, 1, 9, 0, 0⟩ ⟨2024, 1, 1, 10, 0, 0⟩ ⟨2024, 1, 1, 11, 1, 0⟩
    (by decide) (by decide) (by decide) (by decide) (by decide) (by decide)
    (by decide) (by decide)).1
  exact h.trans (by decide)

/-- C6 counterexample: in the triple `seqBbad`/`seqD`/`seqC` the Baseline
timestamp `"garbage"` does not parse, yet the scan still emits ONE Sequence
item (the claim requires three standalone items when any timestamp of the
triple fails to parse, since only the Depassivation and Check timestamps
are ever parsed); moreover the rest gap of 3630 s is rendered `"1h 30s"`,
dropping the non-leading zero minutes unit (the claimed format with only
zero-valued leading units omitted would read `"1h 0m 30s"`). -/
theorem C6_counterexample :
    parseTimestamp seqBbad.timestamp = none
    ∧ Hist.groupTests [seqBbad, seqD, seqC]
      = [⟨1, "Sequence", "garbage", "Completed - PASS (1h 30s rest)", ["check"]⟩]
    ∧ (Hist.groupTests [seqBbad, seqD, seqC]).length = 1
    ∧ toSecs ⟨2024, 1, 1, 11, 1, 0⟩ - (toSecs ⟨2024, 1, 1, 10, 0, 0⟩ + seqD.duration)
      = 3630
    ∧ Hist.restTimeStr 3630 = "1h 30s" := by decide

/-- C6 amended: for every grouped triple the rest time is the gap from the
Depassivation start plus its configured duration to the Check start,
clamped to non-negative, formatted `"<H>h <M>m <S>s"` with the hour and
minute units each omitted when zero; only the Depassivation and Check
timestamps are parsed, and if either of them fails to parse the three
tests are emitted as standalone items instead of an error being raised. -/
theorem C6_rest_time_amended :
    (∀ (t1 t2 t3 : Hist.TypedTest) (rest : List Hist.TypedTest)
        (d2 d3 : DateTime),
      t1.type = "Baseline" → t2.type = "Depassivation" → t3.type = "Check" →
      parseTimestamp t2.timestamp = some d2 →
      parseTimestamp t3.timestamp = some d3 →
      Hist.groupTests (t1 :: t2 :: t3 :: rest)
        = Hist.mkSeqItem t1 t2 t3 d2 d3 :: Hist.groupTests rest
      ∧ (Hist.mkSeqItem t1 t2 t3 d2 d3).result
        = "Completed - " ++ (pySplit t3.result " - ").getLastD ""
          ++ " (" ++ Hist.restTimeStr (toSecs d3 - (toSecs d2 + t2.duration)).toNat
          ++ " rest)")
    ∧ (∀ (t1 t2 t3 : Hist.TypedTest) (rest : List Hist.TypedTest),
      t1.type = "Baseline" → t2.type = "Depassivation" → t3.type = "Check" →
      (parseTimestamp t2.timestamp = none ∨ parseTimestamp t3.timestamp = none) →
      Hist.groupTests (t1 :: t2 :: t3 :: rest)
        = Hist.standaloneItem t1 :: Hist.standaloneItem t2 :: Hist.standaloneItem t3
          :: Hist.groupTests rest) := by
  constructor
  · intro t1 t2 t3 rest d2 d3 h1 h2 h3 hp2 hp3
    refine ⟨?_, rfl⟩
    simp [Hist.groupTests, h1, h2, h3, hp2, hp3]
  · intro t1 t2 t3 rest h1 h2 h3 hp
    have hd : Hist.groupTests (t2 :: t3 :: rest)
        = Hist.standaloneItem t2 :: Hist.groupTests (t3 :: rest) :=
      groupTests_head_not_baseline t2 (t3 :: rest) (by rw [h2]; decide)
    have hc : Hist.groupTests (t3 :: rest)
        = Hist.standaloneItem t3 :: Hist.groupTests rest :=
      groupTests_head_not_baseline t3 rest (by rw [h3]; decide)
    rcases hp with hp2 | hp3
    · have : Hist.groupTests (t1 :: t2 :: t3 :: rest)
          = Hist.standaloneItem t1 :: Hist.groupTests (t2 :: t3 :: rest) := by
        simp [Hist.groupTests, h1, h2, h3, hp2]
      rw [this, hd, hc]
    · have : Hist.groupTests (t1 :: t2 :: t3 :: rest)
          = Hist.standaloneItem t1 :: Hist.groupTests (t2 :: t3 :: rest) := by
        cases hp2 : parseTimestamp t2.timestamp <;>
          simp [Hist.groupTests, h1, h2, h3, hp2, hp3]
      rw [this, hd, hc]

/-- C6 witness: the amended statement evaluated on concrete triples — the
well-formed triple yields the Sequence result string with rest `"1h 30s"`,
and a triple whose Depassivation timestamp does not parse falls back to
three standalone items. -/
theorem C6_rest_time_amended_witness :
    Hist.groupTests [seqB, seqD, seqC]
      = [⟨1, "Sequence", "2024-01-01 09:00:00",
          "Completed - PASS (1h 30s rest)", ["check"]⟩]
    ∧ Hist.groupTests [seqB, seqDbad, seqC]
      = [Hist.standaloneItem seqB, Hist.standaloneItem seqDbad,
          Hist.standaloneItem seqC] := by
  constructor
  · have h := (C6_rest_time_amended.1 seqB seqD seqC []
      ⟨2024, 1, 1, 10, 0, 0⟩ ⟨2024, 1, 1, 11, 1, 0⟩
      (by decide) (by decide) (by decide) (by decide) (by decide)).1
    exact h.trans (by decide)
  · have h := C6_rest_time_amended.2 seqB seqDbad seqC []
      (by decide) (by decide) (by decide) (Or.inl (by decide))
    exact h.trans (by decide)

/-- C7: the claim states the current and resistance extrema follow a
first-sample-sets rule regardless of the value (including zero or
negative).  The source instead keeps a 0.0 sentinel and a `> 0` gate: with
the load active, a first live sample with current −5.0 mA and resistance
−1.0 Ω leaves `live_max_current`, `live_min_resistance` and
`live_max_resistance` all at the 0.0 sentinel, and a first timed sample
with current −5.0 mA likewise leaves `max_current` at 0.0. -/
theorem C7_extrema_first_sample_not_set :
    (DG.handle_serial_data liveDGSession "LIVE_DATA,3.0,-5.0,1.0,-1.0").live_max_current = 0
    ∧ (DG.handle_serial_data liveDGSession "LIVE_DATA,3.0,-5.0,1.0,-1.0").live_min_resistance = 0
    ∧ (DG.handle_serial_data liveDGSession "LIVE_DATA,3.0,-5.0,1.0,-1.0").live_max_resistance = 0
    ∧ pythonFloat? "-5.0" = some (mkRat (-5) 1)
    ∧ (mkRat (-5) 1 : ℚ) ≠ 0
    ∧ (mkRat (-1) 1 : ℚ) ≠ 0
    ∧ (DG.handle_serial_data freshDGSession "DATA,0,3.0,-5.0,1.0,1.0").max_current = 0 := by
  decide

/-- C8: later-revision `delete_battery` on an existing battery returns true
and deletes only the battery row: the test table keeps its length, every
test that referenced the deleted battery survives with its reference set to
null, every other test row is untouched, no surviving test references the
deleted battery, and the sample table is untouched. -/
theorem C8_delete_battery_frame (st : DG.Store) (bid : Nat)
    (hex : ∃ b ∈ st.batteries, b.id = bid) :
    (DG.delete_battery (some bid) st).1 = true
    ∧ (DG.delete_battery (some bid) st).2.points = st.points
    ∧ (DG.delete_battery (some bid) st).2.tests.length = st.tests.length
    ∧ (∀ r ∈ st.tests, r.battery_id = some bid →
        { r with battery_id := none } ∈ (DG.delete_battery (some bid) st).2.tests)
    ∧ (∀ r ∈ st.tests, r.battery_id ≠ some bid →
        r ∈ (DG.delete_battery (some bid) st).2.tests)
    ∧ (∀ r ∈ (DG.delete_battery (some bid) st).2.tests, r.battery_id ≠ some bid) := by
  obtain ⟨b, hb, hbid⟩ := hex
  refine ⟨?_, rfl, ?_, ?_, ?_, ?_⟩
  · simp only [DG.delete_battery, decide_eq_true_eq]
    exact List.length_filter_lt_length_iff_exists.mpr ⟨b, hb, by simp [hbid]⟩
  · simp [DG.delete_battery]
  · intro r hr hrb
    have hm := List.mem_map_of_mem
      (fun r => if r.battery_id = some bid then { r with battery_id := none } else r) hr
    simpa [DG.delete_battery, hrb] using hm
  · intro r hr hrb
    have hm := List.mem_map_of_mem
      (fun r => if r.battery_id = some bid then { r with battery_id := none } else r) hr
    simpa [DG.delete_battery, hrb] using hm
  · intro r hr
    simp only [DG.delete_battery, List.mem_map] at hr
    obtain ⟨r0, hr0, heq⟩ := hr
    by_cases h0 : r0.battery_id = some bid
    · rw [← heq]; simp [h0]
    · rw [← heq]; simp [h0]

/-- C8 witness: deleting battery 7 (two tests, one sample on test 1) keeps
the sample table and the test count; the surviving rows have null battery
references where they pointed at battery 7. -/
theorem C8_delete_battery_frame_witness :
    (DG.delete_battery (some 7) twoBatteryStore).1 = true
    ∧ (DG.delete_battery (some 7) twoBatteryStore).2.points = twoBatteryStore.points
    ∧ (DG.delete_battery (some 7) twoBatteryStore).2.tests.length
      = twoBatteryStore.tests.length := by
  have h := C8_delete_battery_frame twoBatteryStore 7
    ⟨⟨7, "B7", "2024-01-01 08:00:00"⟩, by decide, rfl⟩
  exact ⟨h.1, h.2.1, h.2.2.1⟩
